import Mathlib

/-!
Verification of the CodexMonitor daemon (`src-tauri/src/bin/codex_monitor_daemon.rs`,
with the in-process variant in `src-tauri/src/workspaces.rs`).

The Rust sources are shallowly embedded as pure Lean functions.  External
effects (filesystem, git subprocesses, process spawning, sessions) are
abstracted into explicit oracle structures passed as arguments; everything
the claims talk about (control flow, error strings, catalog mutation, JSON
payload assembly) is translated directly from the source.
-/

/-- JSON values, as used by `serde_json::Value` in the source.  Numbers are
modelled as integers (the daemon only deals in integral JSON numbers:
request ids and `u32` limits). -/
inductive Json where
  | null : Json
  | bool (b : Bool) : Json
  | num (n : Int) : Json
  | str (s : String) : Json
  | arr (items : List Json) : Json
  | obj (fields : List (String × Json)) : Json

/-- Field lookup on a JSON object (`serde_json` `Value::get`): `none` on
non-objects and missing keys. -/
def Json.lookup (j : Json) (key : String) : Option Json :=
  match j with
  | .obj fields => List.lookup key fields
  | _ => none

/-- Rust `Value::as_str`. -/
def Json.asStr : Json → Option String
  | .str s => some s
  | _ => none

/-- Rust `Value::as_u64`: defined only on non-negative integers below 2^64. -/
def Json.asU64 : Json → Option Nat
  | .num n => if 0 ≤ n ∧ n < 18446744073709551616 then some n.toNat else none
  | _ => none

/-- Workspace kind (`WorkspaceKind` in `types.rs`; the source of that file is
not part of the repository snapshot, the shape follows the spec data model:
kind ∈ \x7bMain, Worktree\x7d). -/
inductive WorkspaceKind where
  | main : WorkspaceKind
  | worktree : WorkspaceKind
deriving DecidableEq, Repr

/-- Rust `WorkspaceKind::is_worktree`. -/
def WorkspaceKind.is_worktree : WorkspaceKind → Bool
  | .main => false
  | .worktree => true

/-- Worktree metadata (`WorktreeInfo` in `types.rs`, shape per the spec). -/
structure WorktreeInfo where
  branch : String
deriving DecidableEq, Repr

/-- Per-workspace settings (`WorkspaceSettings` in `types.rs`, shape per the
spec: `sidebar_collapsed : bool`, `sort_order : optional u32`).  `u32` values
are modelled as `Nat` (all arithmetic on them here is comparison only). -/
structure WorkspaceSettings where
  sidebar_collapsed : Bool := false
  sort_order : Option Nat := none
deriving DecidableEq, Repr

/-- Persisted workspace record (`WorkspaceEntry` in `types.rs`, shape per the
spec data model). -/
structure WorkspaceEntry where
  id : String
  name : String
  path : String
  codex_bin : Option String
  kind : WorkspaceKind
  parent_id : Option String
  worktree : Option WorktreeInfo
  settings : WorkspaceSettings
deriving DecidableEq, Repr

/-- Wire-facing workspace record (`WorkspaceInfo` in `types.rs`): the entry
plus the live `connected` flag. -/
structure WorkspaceInfo where
  id : String
  name : String
  path : String
  connected : Bool
  codex_bin : Option String
  kind : WorkspaceKind
  parent_id : Option String
  worktree : Option WorktreeInfo
  settings : WorkspaceSettings
deriving DecidableEq, Repr

/-- The catalog (`DaemonState.workspaces`, a `HashMap<String, WorkspaceEntry>`
keyed by entry id) is modelled as a list of entries; lookup is by the `id`
field. -/
def findEntry (catalog : List WorkspaceEntry) (id : String) : Option WorkspaceEntry :=
  catalog.find? fun w => w.id = id

/-- Character rewriting step of `sanitize_worktree_name`: keep ASCII
alphanumerics and `-`/`_`/`.`, replace anything else by `-`.
(`Char.isAlphanum` is the ASCII check, matching `is_ascii_alphanumeric`.) -/
def sanitize_char (ch : Char) : Char :=
  if ch.isAlphanum || ch = '-' || ch = '_' || ch = '.' then ch else '-'

/-- Rust `str::trim_matches('-')`: drop leading and trailing dashes. -/
def trim_dashes (l : List Char) : List Char :=
  ((l.dropWhile fun c => c = '-').reverse.dropWhile fun c => c = '-').reverse

/-- Rust `sanitize_worktree_name` (identical in the daemon binary and in
`workspaces.rs`). -/
def sanitize_worktree_name (branch : String) : String :=
  let mapped := branch.data.map sanitize_char
  let trimmed := trim_dashes mapped
  if trimmed.isEmpty then "worktree" else String.mk trimmed

/-- Rust `u32::MAX`, the sort key used for an absent `sort_order`. -/
def u32_max : Nat := 4294967295

/-- Sort key of `sort_workspaces`: `settings.sort_order.unwrap_or(u32::MAX)`. -/
def sort_key (w : WorkspaceInfo) : Nat :=
  w.settings.sort_order.getD u32_max

/-- Lexicographic "less or equal" on character lists by code point.  Rust's
`String::cmp` compares UTF-8 bytes lexicographically, which coincides with
code-point lexicographic order. -/
def list_lex_le : List Char → List Char → Bool
  | [], _ => true
  | _ :: _, [] => false
  | a :: as, b :: bs =>
    if a.toNat < b.toNat then true
    else if b.toNat < a.toNat then false
    else list_lex_le as bs

/-- Rust `String` order (`a.cmp(&b) != Greater`). -/
def name_le (a b : String) : Bool :=
  list_lex_le a.data b.data

/-- The comparator of `sort_workspaces` as a boolean "less or equal": the Rust
closure returns `a_order.cmp(&b_order)` when the keys differ and
`a.name.cmp(&b.name)` otherwise; `ws_le a b` holds iff that comparison is not
`Greater`. -/
def ws_le (a b : WorkspaceInfo) : Bool :=
  if sort_key a ≠ sort_key b then decide (sort_key a < sort_key b)
  else name_le a.name b.name

/-- Insertion step of a stable sort by `ws_le`. -/
def insert_ws (a : WorkspaceInfo) : List WorkspaceInfo → List WorkspaceInfo
  | [] => [a]
  | b :: l => if ws_le a b then a :: b :: l else b :: insert_ws a l

/-- Rust `sort_workspaces` (`slice::sort_by`, a stable sort by the
comparator).  The output of a stable sort is uniquely determined by the
comparator and the input order, so the structurally recursive insertion sort
used here is extensionally the source's sort. -/
def sort_workspaces (l : List WorkspaceInfo) : List WorkspaceInfo :=
  match l with
  | [] => []
  | a :: l => insert_ws a (sort_workspaces l)

/-- Conversion from a catalog entry to the wire record, with `connected`
looked up in the sessions map (modelled as the list of connected ids). -/
def entry_info (sessions : List String) (e : WorkspaceEntry) : WorkspaceInfo :=
  { id := e.id, name := e.name, path := e.path, connected := sessions.contains e.id,
    codex_bin := e.codex_bin, kind := e.kind, parent_id := e.parent_id,
    worktree := e.worktree, settings := e.settings }

/-- Rust `DaemonState::list_workspaces`: build the info list from the catalog
and the sessions map, then sort. -/
def list_workspaces (catalog : List WorkspaceEntry) (sessions : List String) : List WorkspaceInfo :=
  sort_workspaces (catalog.map (entry_info sessions))

/-- UTF-8 validity, byte-by-byte state machine: `k` is the number of
continuation bytes still expected, `lo`/`hi` bound the next byte (the first
continuation byte of a sequence has narrowed bounds exactly as in Rust's
`String::from_utf8` / RFC 3629: no overlong forms, no surrogates, nothing
above `U+10FFFF`; subsequent continuation bytes are `0x80..=0xBF`). -/
def utf8ValidAux : Nat → Nat → Nat → List Nat → Bool
  | 0, _, _, [] => true
  | _ + 1, _, _, [] => false
  | 0, _, _, b :: rest =>
    if b < 128 then utf8ValidAux 0 0 0 rest
    else if 194 ≤ b && b ≤ 223 then utf8ValidAux 1 128 191 rest
    else if b = 224 then utf8ValidAux 2 160 191 rest
    else if 225 ≤ b && b ≤ 236 then utf8ValidAux 2 128 191 rest
    else if b = 237 then utf8ValidAux 2 128 159 rest
    else if 238 ≤ b && b ≤ 239 then utf8ValidAux 2 128 191 rest
    else if b = 240 then utf8ValidAux 3 144 191 rest
    else if 241 ≤ b && b ≤ 243 then utf8ValidAux 3 128 191 rest
    else if b = 244 then utf8ValidAux 3 128 143 rest
    else false
  | k + 1, lo, hi, b :: rest =>
    if lo ≤ b && b ≤ hi then utf8ValidAux k 128 191 rest else false

/-- UTF-8 validity of a byte sequence, exactly as Rust's `String::from_utf8`
checks it. -/
def utf8Valid (l : List Nat) : Bool :=
  utf8ValidAux 0 0 0 l

/-- Rust `MAX_WORKSPACE_FILE_BYTES`. -/
def MAX_WORKSPACE_FILE_BYTES : Nat := 400000

/-- Response of `read_workspace_file`.  The Rust `content` field is a
`String`; it is modelled by its UTF-8 byte sequence (which determines the
string uniquely, since it is only built from validated bytes). -/
structure WorkspaceFileResponse where
  content : List Nat
  truncated : Bool
deriving DecidableEq, Repr

/-- Filesystem oracle for `read_workspace_file_inner`.  Canonical paths are
modelled as lists of components, matching Rust `Path` semantics where
`starts_with` is component-wise prefix.  `canonicalize` is the kernel's path
resolution (symlinks, `..`); `metadataIsFile` is `fs::metadata(..).is_file()`;
`fileBytes` is the byte content of the file at a canonical path. -/
structure FS where
  canonicalize : List String → Except String (List String)
  metadataIsFile : List String → Except String Bool
  fileBytes : List String → List Nat

/-- Rust `read_workspace_file_inner`.  `Path::join` of the relative path is
component concatenation (the daemon is given relative paths; an absolute
argument would replace the root, which the prefix check then rejects anyway
unless it resolves back under the root).  Reading `take (MAX+1)` bytes,
the truncation test, the truncation itself and the UTF-8 validation are
verbatim from the source. -/
def read_workspace_file_inner (fs : FS) (root : List String) (relative_path : List String) :
    Except String WorkspaceFileResponse :=
  match fs.canonicalize root with
  | .error err => .error ("Failed to resolve workspace root: " ++ err)
  | .ok canonical_root =>
    let candidate := canonical_root ++ relative_path
    match fs.canonicalize candidate with
    | .error err => .error ("Failed to open file: " ++ err)
    | .ok canonical_path =>
      if ¬ canonical_root.isPrefixOf canonical_path then .error "Invalid file path"
      else
        match fs.metadataIsFile canonical_path with
        | .error err => .error ("Failed to read file metadata: " ++ err)
        | .ok isFile =>
          if ¬ isFile then .error "Path is not a file"
          else
            let buffer := (fs.fileBytes canonical_path).take (MAX_WORKSPACE_FILE_BYTES + 1)
            let truncated := decide (buffer.length > MAX_WORKSPACE_FILE_BYTES)
            let buffer := if truncated then buffer.take MAX_WORKSPACE_FILE_BYTES else buffer
            if utf8Valid buffer then .ok { content := buffer, truncated := truncated }
            else .error "File is not valid UTF-8"

/-- Rust `str::trim`: drop leading and trailing whitespace
(structural model over the character list). -/
def rust_trim (s : String) : String :=
  String.mk
    (((s.data.dropWhile Char.isWhitespace).reverse.dropWhile Char.isWhitespace).reverse)

/-- Rust `str::starts_with` (byte prefix, equivalently character-list
prefix). -/
def starts_with (s pre : String) : Bool :=
  pre.data.isPrefixOf s.data

/-- Prefix test of `send_user_message` image paths: `data:`, `http://`,
`https://`. -/
def image_url_prefix (s : String) : Bool :=
  starts_with s "data:" || starts_with s "http://" || starts_with s "https://"

/-- JSON element for the trimmed text of a user message. -/
def text_element (t : String) : Json :=
  Json.obj [("type", Json.str "text"), ("text", Json.str t)]

/-- JSON element for a remote image path. -/
def image_element (u : String) : Json :=
  Json.obj [("type", Json.str "image"), ("url", Json.str u)]

/-- JSON element for a local image path. -/
def local_image_element (p : String) : Json :=
  Json.obj [("type", Json.str "localImage"), ("path", Json.str p)]

/-- The input array built by `send_user_message`: the trimmed text first when
non-empty, then each image path trimmed, skipped when blank, and classified
by its URL prefix — translated from the push loop in the source. -/
def build_input (text : String) (images : Option (List String)) : List Json :=
  let trimmed_text := rust_trim text
  let base := if trimmed_text ≠ "" then [text_element trimmed_text] else []
  (images.getD []).foldl
    (fun acc path =>
      let trimmed := rust_trim path
      if trimmed = "" then acc
      else if image_url_prefix trimmed then acc ++ [image_element trimmed]
      else acc ++ [local_image_element trimmed])
    base

/-- Sandbox policy JSON of `send_user_message` (after `access_mode` has been
defaulted to `"current"`). -/
def sandbox_policy_json (workspace_path : String) (access_mode : String) : Json :=
  if access_mode = "full-access" then Json.obj [("type", Json.str "dangerFullAccess")]
  else if access_mode = "read-only" then Json.obj [("type", Json.str "readOnly")]
  else Json.obj [("type", Json.str "workspaceWrite"),
                 ("writableRoots", Json.arr [Json.str workspace_path]),
                 ("networkAccess", Json.bool true)]

/-- Option fields are serialised by `serde_json` as the value or `null`. -/
def json_of_opt_str (s : Option String) : Json :=
  match s with
  | some v => Json.str v
  | none => Json.null

/-- Rust `DaemonState::send_user_message`, the pure payload-assembly part.
The session lookup is presupposed (the claim is about connected workspaces);
the returned value is the params object forwarded as `turn/start`. -/
def send_user_message (workspace_path thread_id text : String)
    (model effort access_mode : Option String) (images : Option (List String))
    (collaboration_mode : Option Json) : Except String Json :=
  let access_mode := access_mode.getD "current"
  let sandbox_policy := sandbox_policy_json workspace_path access_mode
  let approval_policy := if access_mode = "full-access" then "never" else "on-request"
  let input := build_input text images
  if input.isEmpty then .error "empty user message"
  else
    .ok (Json.obj
      [("threadId", Json.str thread_id),
       ("input", Json.arr input),
       ("cwd", Json.str workspace_path),
       ("approvalPolicy", Json.str approval_policy),
       ("sandboxPolicy", sandbox_policy),
       ("model", json_of_opt_str model),
       ("effort", json_of_opt_str effort),
       ("collaborationMode", (collaboration_mode.getD Json.null))])

/-- Substring search on character lists. -/
def contains_sub : List Char → List Char → Bool
  | [], needle => needle.isEmpty
  | h :: t, needle => needle.isPrefixOf (h :: t) || contains_sub t needle

/-- Substring containment, used by `is_missing_worktree_error`
(`str::contains`). -/
def string_contains (haystack needle : String) : Bool :=
  contains_sub haystack.data needle.data

/-- Rust `is_missing_worktree_error`. -/
def is_missing_worktree_error (error : String) : Bool :=
  string_contains error "is not a working tree"

/-- External-effect oracle for `remove_workspace`: path existence,
`git worktree remove --force <path>` run in the parent repo, and
`fs::remove_dir_all`.  The `git worktree prune` call and session kills have
no observable effect on the catalog or the result and are dropped. -/
structure RemoveEnv where
  pathExists : String → Bool
  gitWorktreeRemove : String → Except String Unit
  fsRemoveDirAll : String → Except String Unit

/-- One iteration of the child-removal loop of the daemon's
`remove_workspace`: `ok` means the child id joins `removed_child_ids`,
`error (id, msg)` means a recorded failure. -/
def remove_child_step (env : RemoveEnv) (child : WorkspaceEntry) :
    Except (String × String) Unit :=
  if env.pathExists child.path then
    match env.gitWorktreeRemove child.path with
    | .ok _ => .ok ()
    | .error err =>
      if is_missing_worktree_error err then
        match env.fsRemoveDirAll child.path with
        | .ok _ => .ok ()
        | .error fs_err => .error (child.id, "Failed to remove worktree folder: " ++ fs_err)
      else .error (child.id, err)
  else .ok ()

/-- The child-removal loop: accumulates `removed_child_ids` and `failures` in
order. -/
def process_children (env : RemoveEnv) (children : List WorkspaceEntry) :
    List String × List (String × String) :=
  children.foldl
    (fun acc child =>
      match remove_child_step env child with
      | .ok _ => (acc.1 ++ [child.id], acc.2)
      | .error f => (acc.1, acc.2 ++ [f]))
    ([], [])

/-- The multi-line partial-failure message of `remove_workspace`: the header
followed by one `"\n- <child_id>: <error>"` per failure. -/
def failure_message (failures : List (String × String)) : String :=
  failures.foldl
    (fun message f => message ++ "\n- " ++ f.1 ++ ": " ++ f.2)
    "Failed to remove one or more worktrees; parent workspace was not removed."

/-- Rust `DaemonState::remove_workspace` (daemon variant): returns the
catalog as persisted afterwards together with the result.  The catalog write
itself is modelled as always succeeding (its failure would merely replace the
returned error). -/
def remove_workspace (env : RemoveEnv) (catalog : List WorkspaceEntry) (id : String) :
    List WorkspaceEntry × Except String Unit :=
  match findEntry catalog id with
  | none => (catalog, .error "workspace not found")
  | some entry =>
    if entry.kind.is_worktree then (catalog, .error "Use remove_worktree for worktree agents.")
    else
      let children := catalog.filter fun w => w.parent_id = some id
      let processed := process_children env children
      let removed_child_ids := processed.1
      let failures := processed.2
      let ids_to_remove := if failures.isEmpty then removed_child_ids ++ [id] else removed_child_ids
      let catalog2 := catalog.filter fun w => ¬ ids_to_remove.contains w.id
      if failures.isEmpty then (catalog2, .ok ())
      else (catalog2, .error (failure_message failures))

/-- Splitting a character list on a separator character. -/
def split_on_char (sep : Char) : List Char → List (List Char)
  | [] => [[]]
  | c :: rest =>
    let r := split_on_char sep rest
    if c = sep then [] :: r
    else
      match r with
      | [] => [[c]]
      | g :: gs => (c :: g) :: gs

/-- Rust `Path::file_name` for the common case of `/`-separated paths:
the last non-empty component, unless it is `..`; `.` components are elided. -/
def rust_file_name (path : String) : Option String :=
  let comps := (split_on_char '/' path.data).filter fun c => c ≠ [] && c ≠ ['.']
  match comps.getLast? with
  | some c => if c = ['.', '.'] then none else some (String.mk c)
  | none => none

/-- External-effect oracle for `add_workspace`: directory test, the fresh
`Uuid::new_v4` id, and the eager session spawn (returning unit in place of
the session handle). -/
structure AddEnv where
  isDir : String → Bool
  newId : String
  spawn : WorkspaceEntry → Except String Unit

/-- The `WorkspaceEntry` that `add_workspace` builds before spawning. -/
def new_workspace_entry (env : AddEnv) (path : String) (codex_bin : Option String) :
    WorkspaceEntry :=
  { id := env.newId,
    name := (rust_file_name path).getD "Workspace",
    path := path,
    codex_bin := codex_bin,
    kind := .main,
    parent_id := none,
    worktree := none,
    settings := {} }

/-- HashMap insert keyed by id: replaces any entry with the same id. -/
def insertEntry (catalog : List WorkspaceEntry) (entry : WorkspaceEntry) :
    List WorkspaceEntry :=
  (catalog.filter fun w => w.id ≠ entry.id) ++ [entry]

/-- Rust `DaemonState::add_workspace` (daemon variant): directory validation,
eager spawn, then insert + persist.  Returns the persisted catalog and the
result (the new entry stands in for the returned `WorkspaceInfo`, whose
fields are the entry's plus `connected=true`). -/
def add_workspace (env : AddEnv) (catalog : List WorkspaceEntry) (path : String)
    (codex_bin : Option String) : List WorkspaceEntry × Except String WorkspaceEntry :=
  if ¬ env.isDir path then (catalog, .error "Workspace path must be a folder.")
  else
    let entry := new_workspace_entry env path codex_bin
    match env.spawn entry with
    | .error e => (catalog, .error e)
    | .ok _ => (insertEntry catalog entry, .ok entry)

/-- Probe loop of `unique_branch_name` (`for index in 2..1000`), with
`git_branch_exists` as a boolean oracle (its only failure mode in the source
is an inability to launch git at all).  The `remote` argument of the source
is `None` on the `rename_worktree` path modelled here, so the remote check
is vacuous. -/
def probe_branch (branchExists : String → Bool) (desired : String) (i : Nat) :
    Except String (String × Bool) :=
  if h : i < 1000 then
    let candidate := desired ++ "-" ++ toString i
    if ¬ branchExists candidate then .ok (candidate, true)
    else probe_branch branchExists desired (i + 1)
  else .error "Unable to find an available branch name."
termination_by 1000 - i
decreasing_by omega

/-- Rust `unique_branch_name` with `remote = None`. -/
def unique_branch_name (branchExists : String → Bool) (desired : String) :
    Except String (String × Bool) :=
  if desired = "" then .ok (desired, false)
  else if ¬ branchExists desired then .ok (desired, false)
  else probe_branch branchExists desired 2

/-- Probe loop of `unique_worktree_path_for_rename` (`for index in 2..1000`). -/
def probe_worktree_path (pathExists : String → Bool)
    (base_dir name current_path : String) (i : Nat) : Except String String :=
  if h : i < 1000 then
    let next := base_dir ++ "/" ++ name ++ "-" ++ toString i
    if next = current_path || ¬ pathExists next then .ok next
    else probe_worktree_path pathExists base_dir name current_path (i + 1)
  else .error ("Failed to find an available worktree path under " ++ base_dir ++ ".")
termination_by 1000 - i
decreasing_by omega

/-- Rust `unique_worktree_path_for_rename`; paths are `/`-joined strings. -/
def unique_worktree_path_for_rename (pathExists : String → Bool)
    (base_dir name current_path : String) : Except String String :=
  let candidate := base_dir ++ "/" ++ name
  if candidate = current_path then .ok candidate
  else if ¬ pathExists candidate then .ok candidate
  else probe_worktree_path pathExists base_dir name current_path 2

/-- External-effect oracle for `rename_worktree`: the data directory, branch
existence probing, `git branch -m`, `fs::create_dir_all`, path existence and
`git worktree move`.  Session kill/respawn only affect the `connected` flag
of the returned info and the log, not the catalog, and are dropped. -/
structure RenameEnv where
  dataDir : String
  gitBranchExists : String → Bool
  gitBranchRename : String → String → Except String Unit
  createDirAll : String → Except String Unit
  pathExists : String → Bool
  gitWorktreeMove : String → String → Except String Unit

/-- Rust `DaemonState::rename_worktree` (daemon variant): returns the
persisted catalog and the result; the returned entry snapshot stands in for
the `WorkspaceInfo`.  On `git worktree move` failure the compensating
`git branch -m` back is best-effort and has no catalog effect. -/
def rename_worktree (env : RenameEnv) (catalog : List WorkspaceEntry) (id branch : String) :
    List WorkspaceEntry × Except String WorkspaceEntry :=
  let trimmed := rust_trim branch
  if trimmed = "" then (catalog, .error "Branch name is required.")
  else
    match findEntry catalog id with
    | none => (catalog, .error "workspace not found")
    | some entry =>
      if ¬ entry.kind.is_worktree then (catalog, .error "Not a worktree workspace.")
      else
        match entry.parent_id with
        | none => (catalog, .error "worktree parent not found")
        | some parent_id =>
          match findEntry catalog parent_id with
          | none => (catalog, .error "worktree parent not found")
          | some parent =>
            match entry.worktree with
            | none => (catalog, .error "worktree metadata missing")
            | some wt =>
              let old_branch := wt.branch
              if old_branch = trimmed then (catalog, .error "Branch name is unchanged.")
              else
                match unique_branch_name env.gitBranchExists trimmed with
                | .error e => (catalog, .error e)
                | .ok fb =>
                  let final_branch := fb.1
                  if final_branch = old_branch then (catalog, .error "Branch name is unchanged.")
                  else
                    match env.gitBranchRename old_branch final_branch with
                    | .error e => (catalog, .error e)
                    | .ok _ =>
                      let worktree_root := env.dataDir ++ "/worktrees/" ++ parent.id
                      match env.createDirAll worktree_root with
                      | .error e =>
                        (catalog, .error ("Failed to create worktree directory: " ++ e))
                      | .ok _ =>
                        let safe_name := sanitize_worktree_name final_branch
                        match unique_worktree_path_for_rename env.pathExists worktree_root
                            safe_name entry.path with
                        | .error e => (catalog, .error e)
                        | .ok next_path =>
                          let moved : Except String Unit :=
                            if next_path ≠ entry.path then
                              env.gitWorktreeMove entry.path next_path
                            else .ok ()
                          match moved with
                          | .error e => (catalog, .error e)
                          | .ok _ =>
                            let catalog2 := catalog.map fun w =>
                              if w.id = id then
                                { w with
                                  name := final_branch,
                                  path := next_path,
                                  worktree := some { branch := final_branch } }
                              else w
                            match findEntry catalog2 id with
                            | none => (catalog, .error "workspace not found")
                            | some snapshot => (catalog2, .ok snapshot)

/-- Rust `handle_rpc_request`: the dispatcher's method table.  The body of
each handler (argument parsing plus the `DaemonState` operation) is
abstracted into the `state` oracle, applied to the method name and the raw
params; the table itself and the unknown-method error are verbatim. -/
def handle_rpc_request (state : String → Json → Except String Json)
    (method : String) (params : Json) : Except String Json :=
  match method with
  | "ping" => .ok (Json.obj [("ok", Json.bool true)])
  | "list_workspaces" => state "list_workspaces" params
  | "is_workspace_path_dir" => state "is_workspace_path_dir" params
  | "add_workspace" => state "add_workspace" params
  | "add_worktree" => state "add_worktree" params
  | "connect_workspace" => state "connect_workspace" params
  | "remove_workspace" => state "remove_workspace" params
  | "remove_worktree" => state "remove_worktree" params
  | "rename_worktree" => state "rename_worktree" params
  | "rename_worktree_upstream" => state "rename_worktree_upstream" params
  | "update_workspace_settings" => state "update_workspace_settings" params
  | "update_workspace_codex_bin" => state "update_workspace_codex_bin" params
  | "list_workspace_files" => state "list_workspace_files" params
  | "read_workspace_file" => state "read_workspace_file" params
  | "get_app_settings" => state "get_app_settings" params
  | "update_app_settings" => state "update_app_settings" params
  | "get_codex_config_path" => state "get_codex_config_path" params
  | "start_thread" => state "start_thread" params
  | "resume_thread" => state "resume_thread" params
  | "list_threads" => state "list_threads" params
  | "archive_thread" => state "archive_thread" params
  | "send_user_message" => state "send_user_message" params
  | "turn_interrupt" => state "turn_interrupt" params
  | "start_review" => state "start_review" params
  | "model_list" => state "model_list" params
  | "collaboration_mode_list" => state "collaboration_mode_list" params
  | "account_rate_limits" => state "account_rate_limits" params
  | "skills_list" => state "skills_list" params
  | "respond_to_server_request" => state "respond_to_server_request" params
  | "remember_approval_rule" => state "remember_approval_rule" params
  | _ => .error ("unknown method: " ++ method)

/-- Rust `build_error_response` (`let id = id?` then the error object);
responses stay as JSON values, serialisation is dropped. -/
def build_error_response (id : Option Nat) (message : String) : Option Json :=
  id.map fun i =>
    Json.obj [("id", Json.num i), ("error", Json.obj [("message", Json.str message)])]

/-- Rust `build_result_response`. -/
def build_result_response (id : Option Nat) (result : Json) : Option Json :=
  id.map fun i => Json.obj [("id", Json.num i), ("result", result)]

/-- Rust `parse_auth_token`. -/
def parse_auth_token (params : Json) : Option String :=
  match params with
  | .str value => some value
  | .obj map => (List.lookup "token" map).bind Json.asStr
  | _ => none

/-- Frame field extraction of `handle_client`:
`message.get("id").and_then(as_u64)`. -/
def frame_id (message : Json) : Option Nat :=
  (message.lookup "id").bind Json.asU64

/-- Frame field extraction of `handle_client`:
`message.get("method").and_then(as_str).unwrap_or("")`. -/
def frame_method (message : Json) : String :=
  ((message.lookup "method").bind Json.asStr).getD ""

/-- Frame field extraction of `handle_client`:
`message.get("params").unwrap_or(Null)`. -/
def frame_params (message : Json) : Json :=
  (message.lookup "params").getD Json.null

/-- Initial connection state of `handle_client`:
`authenticated = config.token.is_none()`. -/
def initial_authenticated (token : Option String) : Bool :=
  token.isNone

/-- One iteration of the `handle_client` read loop on a successfully parsed
frame: returns the reply sent on `out_tx` (if any) and the `authenticated`
flag afterwards.  Event-bus subscription and the forwarder task have no
effect on replies or on the flag and are dropped. -/
def handle_line (token : Option String) (state : String → Json → Except String Json)
    (authenticated : Bool) (message : Json) : Option Json × Bool :=
  let id := frame_id message
  let method := frame_method message
  let params := frame_params message
  if ¬ authenticated then
    if method ≠ "auth" then (build_error_response id "unauthorized", false)
    else
      let expected := token.getD ""
      let provided := (parse_auth_token params).getD ""
      if expected ≠ provided then (build_error_response id "invalid token", false)
      else (build_result_response id (Json.obj [("ok", Json.bool true)]), true)
  else
    match handle_rpc_request state method params with
    | .ok result => (build_result_response id result, true)
    | .error msg => (build_error_response id msg, true)

/-- Character class named by the claim: `[A-Za-z0-9._-]`. -/
def allowed_char (c : Char) : Bool :=
  c.isAlphanum || c = '_' || c = '.' || c = '-'

theorem allowed_char_sanitize (c : Char) : allowed_char (sanitize_char c) = true := by
  unfold sanitize_char allowed_char
  split
  · rename_i h
    simp only [Bool.or_eq_true, decide_eq_true_eq] at h ⊢
    tauto
  · decide

theorem trim_dashes_eq_rdropWhile (l : List Char) :
    trim_dashes l = List.rdropWhile (fun c => c = '-') (l.dropWhile fun c => c = '-') := rfl

theorem mem_of_mem_trim_dashes {c : Char} {l : List Char} (h : c ∈ trim_dashes l) : c ∈ l := by
  rw [trim_dashes_eq_rdropWhile] at h
  exact (List.dropWhile_suffix (fun c => c = '-')).subset
    ((List.rdropWhile_prefix (fun c => c = '-') (l.dropWhile fun c => c = '-')).subset h)

theorem trim_dashes_head {c : Char} {l : List Char}
    (h : (trim_dashes l).head? = some c) : c ≠ '-' := by
  have hne : trim_dashes l ≠ [] := by
    intro h0
    rw [h0] at h
    simp at h
  have hdrop : (l.dropWhile fun x => x = '-') ≠ [] := by
    rw [trim_dashes_eq_rdropWhile] at hne
    intro h0
    rw [h0] at hne
    simp [List.rdropWhile] at hne
  have hhead : (trim_dashes l).head hne = c := by
    rw [List.head?_eq_head hne] at h
    exact Option.some.inj h
  have hpre : trim_dashes l <+: (l.dropWhile fun x => x = '-') := by
    rw [trim_dashes_eq_rdropWhile]
    exact List.rdropWhile_prefix _ _
  have heq := hpre.head hne
  have hnot := List.head_dropWhile_not (fun x => x = '-') l (hpre.ne_nil hne)
  rw [← heq, hhead] at hnot
  simpa using hnot

theorem trim_dashes_getLast {c : Char} {l : List Char}
    (h : (trim_dashes l).getLast? = some c) : c ≠ '-' := by
  have hne : trim_dashes l ≠ [] := by
    intro h0
    rw [h0] at h
    simp at h
  have hlast : (trim_dashes l).getLast hne = c := by
    rw [List.getLast?_eq_getLast _ hne] at h
    exact Option.some.inj h
  have hne2 : List.rdropWhile (fun c => c = '-') (l.dropWhile fun c => c = '-') ≠ [] := by
    rw [← trim_dashes_eq_rdropWhile]
    exact hne
  have hnot := List.rdropWhile_last_not (fun c => c = '-')
    (l.dropWhile fun c => c = '-') hne2
  have : ((trim_dashes l).getLast hne : Char) =
      (List.rdropWhile (fun c => c = '-') (l.dropWhile fun c => c = '-')).getLast hne2 := by
    congr 1
  rw [hlast] at this
  rw [← this] at hnot
  simpa using hnot

theorem sanitize_data_cases (s : String) :
    (sanitize_worktree_name s).data = "worktree".data ∨
    (sanitize_worktree_name s).data = trim_dashes (s.data.map sanitize_char) := by
  unfold sanitize_worktree_name
  dsimp only
  split
  · left; rfl
  · right; rfl

theorem sanitize_ne_empty (s : String) : sanitize_worktree_name s ≠ "" := by
  unfold sanitize_worktree_name
  dsimp only
  split
  · decide
  · rename_i h
    intro hc
    have : trim_dashes (s.data.map sanitize_char) = [] := congrArg String.data hc
    rw [this] at h
    simp at h

/-- C7 (confirmed): for every input, `sanitize_worktree_name` returns a
non-empty string over `[A-Za-z0-9._-]` with no leading and no trailing `-`;
and it maps `"feature/new-thing"` to `"feature-new-thing"`, `"///"` to
`"worktree"`, and `"--branch--"` to `"branch"`. -/
theorem C7_sanitize_worktree_name (s : String) :
    (sanitize_worktree_name s ≠ ""
      ∧ (∀ c ∈ (sanitize_worktree_name s).data, allowed_char c = true)
      ∧ (∀ c, (sanitize_worktree_name s).data.head? = some c → c ≠ '-')
      ∧ (∀ c, (sanitize_worktree_name s).data.getLast? = some c → c ≠ '-'))
    ∧ sanitize_worktree_name "feature/new-thing" = "feature-new-thing"
    ∧ sanitize_worktree_name "///" = "worktree"
    ∧ sanitize_worktree_name "--branch--" = "branch" := by
  refine ⟨⟨sanitize_ne_empty s, ?_, ?_, ?_⟩, by decide, by decide, by decide⟩
  · intro c hc
    rcases sanitize_data_cases s with h | h
    · rw [h] at hc
      revert hc
      revert c
      decide
    · rw [h] at hc
      have := mem_of_mem_trim_dashes hc
      rcases List.mem_map.mp this with ⟨a, _, ha⟩
      rw [← ha]
      exact allowed_char_sanitize a
  · intro c hc
    rcases sanitize_data_cases s with h | h
    · rw [h] at hc
      simp only [show ("worktree".data.head? = some 'w') from rfl] at hc
      rw [← Option.some.inj hc]
      decide
    · rw [h] at hc
      exact trim_dashes_head hc
  · intro c hc
    rcases sanitize_data_cases s with h | h
    · rw [h] at hc
      simp only [show ("worktree".data.getLast? = some 'e') from rfl] at hc
      rw [← Option.some.inj hc]
      decide
    · rw [h] at hc
      exact trim_dashes_getLast hc

/-- Witness for C7: the general bounds instantiated on the concrete input
`"a/b"` (sanitised to `"a-b"`). -/
theorem C7_sanitize_worktree_name_witness :
    sanitize_worktree_name "a/b" ≠ ""
      ∧ allowed_char 'a' = true ∧ 'a' ≠ '-' ∧ 'b' ≠ '-' := by
  refine ⟨(C7_sanitize_worktree_name "a/b").1.1, ?_, ?_, ?_⟩
  · exact (C7_sanitize_worktree_name "a/b").1.2.1 'a' (by decide)
  · exact (C7_sanitize_worktree_name "a/b").1.2.2.1 'a' (by decide)
  · exact (C7_sanitize_worktree_name "a/b").1.2.2.2 'b' (by decide)

theorem list_lex_le_total : ∀ (as bs : List Char),
    list_lex_le as bs = true ∨ list_lex_le bs as = true
  | [], _ => Or.inl rfl
  | _ :: _, [] => Or.inr rfl
  | a :: as, b :: bs => by
    rcases Nat.lt_trichotomy a.toNat b.toNat with h | h | h
    · left
      simp [list_lex_le, h]
    · rcases list_lex_le_total as bs with ih | ih
      · left
        simp [list_lex_le, h, ih]
      · right
        simp [list_lex_le, h.symm, ih]
    · right
      simp [list_lex_le, h]

theorem list_lex_le_trans : ∀ {as bs cs : List Char},
    list_lex_le as bs = true → list_lex_le bs cs = true → list_lex_le as cs = true
  | [], _, _, _, _ => rfl
  | a :: as, b :: bs, [], _, h2 => by simp [list_lex_le] at h2
  | a :: as, [], cs, h1, _ => by simp [list_lex_le] at h1
  | a :: as, b :: bs, c :: cs, h1, h2 => by
    simp only [list_lex_le] at h1 h2 ⊢
    rcases Nat.lt_trichotomy a.toNat b.toNat with hab | hab | hab
    · rcases Nat.lt_trichotomy b.toNat c.toNat with hbc | hbc | hbc
      · simp [Nat.lt_trans hab hbc]
      · simp [hbc ▸ hab]
      · rw [if_neg (by omega), if_pos hbc] at h2
        exact absurd h2 Bool.false_ne_true
    · rcases Nat.lt_trichotomy b.toNat c.toNat with hbc | hbc | hbc
      · simp [hab ▸ hbc]
      · rw [if_neg (by omega), if_neg (by omega)] at h1 h2
        rw [if_neg (by omega), if_neg (by omega)]
        exact list_lex_le_trans h1 h2
      · rw [if_neg (by omega), if_pos hbc] at h2
        exact absurd h2 Bool.false_ne_true
    · rw [if_neg (by omega), if_pos hab] at h1
      exact absurd h1 Bool.false_ne_true

theorem name_le_total (a b : String) : name_le a b = true ∨ name_le b a = true :=
  list_lex_le_total a.data b.data

theorem name_le_trans {a b c : String}
    (h1 : name_le a b = true) (h2 : name_le b c = true) : name_le a c = true :=
  list_lex_le_trans h1 h2

theorem ws_le_iff (a b : WorkspaceInfo) :
    ws_le a b = true ↔
      (sort_key a < sort_key b ∨ (sort_key a = sort_key b ∧ name_le a.name b.name = true)) := by
  unfold ws_le
  split
  · rename_i h
    simp only [decide_eq_true_eq]
    constructor
    · intro hlt
      exact Or.inl hlt
    · rintro (hlt | ⟨heq, _⟩)
      · exact hlt
      · exact absurd heq h
  · rename_i h
    rw [not_not] at h
    constructor
    · intro hle
      exact Or.inr ⟨h, hle⟩
    · rintro (hlt | ⟨_, hle⟩)
      · omega
      · exact hle

theorem ws_le_total (a b : WorkspaceInfo) : ws_le a b = true ∨ ws_le b a = true := by
  rw [ws_le_iff, ws_le_iff]
  rcases Nat.lt_trichotomy (sort_key a) (sort_key b) with h | h | h
  · exact Or.inl (Or.inl h)
  · rcases name_le_total a.name b.name with hn | hn
    · exact Or.inl (Or.inr ⟨h, hn⟩)
    · exact Or.inr (Or.inr ⟨h.symm, hn⟩)
  · exact Or.inr (Or.inl h)

theorem ws_le_trans {a b c : WorkspaceInfo}
    (h1 : ws_le a b = true) (h2 : ws_le b c = true) : ws_le a c = true := by
  rw [ws_le_iff] at h1 h2 ⊢
  rcases h1 with h1 | ⟨e1, n1⟩
  · rcases h2 with h2 | ⟨e2, _⟩
    · exact Or.inl (lt_trans h1 h2)
    · exact Or.inl (e2 ▸ h1)
  · rcases h2 with h2 | ⟨e2, n2⟩
    · exact Or.inl (e1 ▸ h2)
    · exact Or.inr ⟨e1.trans e2, name_le_trans n1 n2⟩

theorem insert_ws_perm (a : WorkspaceInfo) (l : List WorkspaceInfo) :
    (insert_ws a l).Perm (a :: l) := by
  induction l with
  | nil => simp [insert_ws]
  | cons b l ih =>
    unfold insert_ws
    split
    · exact List.Perm.refl _
    · exact (ih.cons b).trans (List.Perm.swap a b l)

theorem insert_ws_sorted (a : WorkspaceInfo) {l : List WorkspaceInfo}
    (h : l.Pairwise fun x y => ws_le x y = true) :
    (insert_ws a l).Pairwise fun x y => ws_le x y = true := by
  induction l with
  | nil => simp [insert_ws]
  | cons b l ih =>
    unfold insert_ws
    rw [List.pairwise_cons] at h
    obtain ⟨hb, hl⟩ := h
    split
    · rename_i hab
      rw [List.pairwise_cons]
      constructor
      · intro y hy
        rcases List.mem_cons.mp hy with rfl | hy
        · exact hab
        · exact ws_le_trans hab (hb y hy)
      · rw [List.pairwise_cons]
        exact ⟨hb, hl⟩
    · rename_i hab
      have hba : ws_le b a = true := by
        rcases ws_le_total a b with h | h
        · exact absurd h hab
        · exact h
      rw [List.pairwise_cons]
      constructor
      · intro y hy
        rcases List.mem_cons.mp ((insert_ws_perm a l).mem_iff.mp hy) with rfl | hy
        · exact hba
        · exact hb y hy
      · exact ih hl

theorem sort_workspaces_sorted (l : List WorkspaceInfo) :
    (sort_workspaces l).Pairwise fun x y => ws_le x y = true := by
  induction l with
  | nil => simp [sort_workspaces]
  | cons a l ih => exact insert_ws_sorted a ih

theorem sort_workspaces_perm (l : List WorkspaceInfo) :
    (sort_workspaces l).Perm l := by
  induction l with
  | nil => simp [sort_workspaces]
  | cons a l ih => exact (insert_ws_perm a (sort_workspaces l)).trans (ih.cons a)

/-- Example catalog entry used by the spec's sort-order scenario. -/
def mk_ws (name : String) (sort_order : Option Nat) : WorkspaceEntry :=
  { id := name, name := name, path := "/tmp", codex_bin := none, kind := .main,
    parent_id := none, worktree := none,
    settings := { sidebar_collapsed := false, sort_order := sort_order } }

/-- Catalog with orders `[none, none, 2, 1]` and names
`["beta", "alpha", "delta", "gamma"]`. -/
def C8_example_catalog : List WorkspaceEntry :=
  [mk_ws "beta" none, mk_ws "alpha" none, mk_ws "delta" (some 2), mk_ws "gamma" (some 1)]

/-- C8 (confirmed): `list_workspaces` output is a permutation of the catalog's
info records, pairwise sorted by `sort_order` ascending (an absent
`sort_order` takes the maximal key `u32::MAX`, hence sorts last) with ties
broken by name ascending; on the spec's example the names come out
`["gamma", "delta", "alpha", "beta"]`. -/
theorem C8_list_workspaces_sorted (catalog : List WorkspaceEntry) (sessions : List String) :
    List.Pairwise
        (fun a b => sort_key a < sort_key b ∨
          (sort_key a = sort_key b ∧ name_le a.name b.name = true))
        (list_workspaces catalog sessions)
      ∧ (list_workspaces catalog sessions).Perm (catalog.map (entry_info sessions))
      ∧ (list_workspaces C8_example_catalog []).map (fun w => w.name)
          = ["gamma", "delta", "alpha", "beta"] := by
  refine ⟨?_, sort_workspaces_perm _, by decide⟩
  exact (sort_workspaces_sorted _).imp fun h => (ws_le_iff _ _).mp h

theorem handle_rpc_request_auth (state : String → Json → Except String Json) (params : Json) :
    handle_rpc_request state "auth" params = .error "unknown method: auth" := rfl

/-- C1 (confirmed): in the Unauthenticated state (the daemon has a configured
token `tok`), a frame whose method is not `"auth"` gets
`\x7bid, error:\x7bmessage:"unauthorized"\x7d\x7d` when it carries an id and no reply
otherwise; an `"auth"` frame whose supplied token differs from `tok` gets
`\x7bid, error:\x7bmessage:"invalid token"\x7d\x7d` and the connection stays
Unauthenticated; an `"auth"` frame with the matching token gets
`\x7bid, result:\x7bok:true\x7d\x7d` and the connection becomes Authenticated. -/
theorem C1_auth_gate (tok : String) (state : String → Json → Except String Json)
    (message : Json) :
    (frame_method message ≠ "auth" →
        (∀ i, frame_id message = some i →
          handle_line (some tok) state false message =
            (some (Json.obj [("id", Json.num i),
              ("error", Json.obj [("message", Json.str "unauthorized")])]), false))
        ∧ (frame_id message = none →
            handle_line (some tok) state false message = (none, false)))
    ∧ (frame_method message = "auth" →
        ((parse_auth_token (frame_params message)).getD "" ≠ tok →
          (∀ i, frame_id message = some i →
            (handle_line (some tok) state false message).1 =
              some (Json.obj [("id", Json.num i),
                ("error", Json.obj [("message", Json.str "invalid token")])]))
          ∧ (handle_line (some tok) state false message).2 = false)
        ∧ ((parse_auth_token (frame_params message)).getD "" = tok →
          (∀ i, frame_id message = some i →
            (handle_line (some tok) state false message).1 =
              some (Json.obj [("id", Json.num i),
                ("result", Json.obj [("ok", Json.bool true)])]))
          ∧ (handle_line (some tok) state false message).2 = true)) := by
  constructor
  · intro hm
    constructor
    · intro i hi
      simp [handle_line, hm, hi, build_error_response]
    · intro hi
      simp [handle_line, hm, hi, build_error_response]
  · intro hm
    constructor
    · intro hne
      constructor
      · intro i hi
        simp [handle_line, hm, hi, build_error_response, Ne.symm hne]
      · simp [handle_line, hm, Ne.symm hne]
    · intro heq
      constructor
      · intro i hi
        simp [handle_line, hm, hi, heq, build_result_response]
      · simp [handle_line, hm, heq]

/-- Frame `\x7bid:1, method:"ping"\x7d`. -/
def C1_frame_ping : Json := Json.obj [("id", Json.num 1), ("method", Json.str "ping")]

/-- Frame `\x7bmethod:"ping"\x7d` (no id). -/
def C1_frame_noid : Json := Json.obj [("method", Json.str "ping")]

/-- Frame `\x7bid:2, method:"auth", params:"bad"\x7d`. -/
def C1_frame_bad : Json :=
  Json.obj [("id", Json.num 2), ("method", Json.str "auth"), ("params", Json.str "bad")]

/-- Frame `\x7bid:3, method:"auth", params:"T"\x7d`. -/
def C1_frame_good : Json :=
  Json.obj [("id", Json.num 3), ("method", Json.str "auth"), ("params", Json.str "T")]

/-- Witness for C1, instantiated with token `"T"` on the four frame shapes. -/
theorem C1_auth_gate_witness :
    handle_line (some "T") (fun _ _ => Except.error "") false C1_frame_ping =
      (some (Json.obj [("id", Json.num 1),
        ("error", Json.obj [("message", Json.str "unauthorized")])]), false)
    ∧ handle_line (some "T") (fun _ _ => Except.error "") false C1_frame_noid = (none, false)
    ∧ (handle_line (some "T") (fun _ _ => Except.error "") false C1_frame_bad).1 =
        some (Json.obj [("id", Json.num 2),
          ("error", Json.obj [("message", Json.str "invalid token")])])
    ∧ (handle_line (some "T") (fun _ _ => Except.error "") false C1_frame_bad).2 = false
    ∧ (handle_line (some "T") (fun _ _ => Except.error "") false C1_frame_good).1 =
        some (Json.obj [("id", Json.num 3),
          ("result", Json.obj [("ok", Json.bool true)])])
    ∧ (handle_line (some "T") (fun _ _ => Except.error "") false C1_frame_good).2 = true := by
  refine ⟨?_, ?_, ?_, ?_, ?_, ?_⟩
  · exact ((C1_auth_gate "T" (fun _ _ => Except.error "") C1_frame_ping).1
      (by decide)).1 1 (by rfl)
  · exact ((C1_auth_gate "T" (fun _ _ => Except.error "") C1_frame_noid).1
      (by decide)).2 (by rfl)
  · exact (((C1_auth_gate "T" (fun _ _ => Except.error "") C1_frame_bad).2
      (by rfl)).1 (by decide)).1 2 (by rfl)
  · exact (((C1_auth_gate "T" (fun _ _ => Except.error "") C1_frame_bad).2
      (by rfl)).1 (by decide)).2
  · exact (((C1_auth_gate "T" (fun _ _ => Except.error "") C1_frame_good).2
      (by rfl)).2 (by rfl)).1 3 (by rfl)
  · exact (((C1_auth_gate "T" (fun _ _ => Except.error "") C1_frame_good).2
      (by rfl)).2 (by rfl)).2

/-- C10 (confirmed): in the Authenticated state — and every connection of a
daemon configured with no token starts Authenticated — a frame
`\x7bid, method:"auth", params:<any>\x7d` is dispatched like any other method and
receives `\x7bid, error:\x7bmessage:"unknown method: auth"\x7d\x7d`: the dispatcher's
method table has no `"auth"` entry.  The connection stays Authenticated. -/
theorem C10_auth_after_auth (token : Option String)
    (state : String → Json → Except String Json) (message : Json) (i : Nat)
    (hmethod : frame_method message = "auth")
    (hid : frame_id message = some i) :
    initial_authenticated none = true
    ∧ handle_line token state true message =
        (some (Json.obj [("id", Json.num (Int.ofNat i)),
          ("error", Json.obj [("message", Json.str "unknown method: auth")])]), true) := by
  refine ⟨rfl, ?_⟩
  simp [handle_line, hmethod, hid, handle_rpc_request_auth, build_error_response]

/-- Frame `\x7bid:7, method:"auth", params:null\x7d`. -/
def C10_frame : Json :=
  Json.obj [("id", Json.num 7), ("method", Json.str "auth"), ("params", Json.null)]

/-- Witness for C10 on a no-token daemon with a concrete frame. -/
theorem C10_auth_after_auth_witness :
    initial_authenticated none = true
    ∧ handle_line none (fun _ _ => Except.error "") true C10_frame =
        (some (Json.obj [("id", Json.num 7),
          ("error", Json.obj [("message", Json.str "unknown method: auth")])]), true) :=
  C10_auth_after_auth none (fun _ _ => Except.error "") C10_frame 7 (by rfl) (by rfl)

/-- One `"\n- <child_id>: <error>"` line per recorded failure. -/
def concat_lines (fs : List (String × String)) : String :=
  match fs with
  | [] => ""
  | f :: rest => "\n- " ++ f.1 ++ ": " ++ f.2 ++ concat_lines rest

/-- Loop step of `process_children`, named for the fold lemmas. -/
def pc_step (env : RemoveEnv) (acc : List String × List (String × String))
    (child : WorkspaceEntry) : List String × List (String × String) :=
  match remove_child_step env child with
  | .ok _ => (acc.1 ++ [child.id], acc.2)
  | .error f => (acc.1, acc.2 ++ [f])

theorem process_children_eq (env : RemoveEnv) (children : List WorkspaceEntry) :
    process_children env children = children.foldl (pc_step env) ([], []) := rfl

theorem pc_step_fst_mono (env : RemoveEnv) :
    ∀ (children : List WorkspaceEntry) (acc : List String × List (String × String))
      (x : String), x ∈ acc.1 → x ∈ (children.foldl (pc_step env) acc).1 := by
  intro children
  induction children with
  | nil =>
    intro acc x h
    exact h
  | cons d rest ih =>
    intro acc x h
    rw [List.foldl_cons]
    apply ih
    unfold pc_step
    split
    · exact List.mem_append_left _ h
    · exact h

theorem mem_pc_removed (env : RemoveEnv) :
    ∀ (children : List WorkspaceEntry) (acc : List String × List (String × String))
      (c : WorkspaceEntry), c ∈ children → remove_child_step env c = .ok () →
      c.id ∈ (children.foldl (pc_step env) acc).1 := by
  intro children
  induction children with
  | nil =>
    intro acc c hc
    exact absurd hc (List.not_mem_nil c)
  | cons d rest ih =>
    intro acc c hc hok
    rw [List.foldl_cons]
    rcases List.mem_cons.mp hc with rfl | hc
    · apply pc_step_fst_mono
      unfold pc_step
      rw [hok]
      exact List.mem_append_right _ (by simp)
    · exact ih _ c hc hok

theorem pc_removed_provenance (env : RemoveEnv) :
    ∀ (children : List WorkspaceEntry) (acc : List String × List (String × String))
      (x : String), x ∈ (children.foldl (pc_step env) acc).1 →
      x ∈ acc.1 ∨ ∃ c, c ∈ children ∧ c.id = x := by
  intro children
  induction children with
  | nil =>
    intro acc x h
    exact Or.inl h
  | cons d rest ih =>
    intro acc x h
    rw [List.foldl_cons] at h
    rcases ih _ x h with h2 | ⟨c, hc, hcx⟩
    · unfold pc_step at h2
      split at h2
      · rcases List.mem_append.mp h2 with h3 | h3
        · exact Or.inl h3
        · exact Or.inr ⟨d, List.mem_cons_self d rest, (List.mem_singleton.mp h3).symm⟩
      · exact Or.inl h2
    · exact Or.inr ⟨c, List.mem_cons_of_mem d hc, hcx⟩

theorem foldl_failure_lines :
    ∀ (fs : List (String × String)) (init : String),
      fs.foldl (fun message f => message ++ "\n- " ++ f.1 ++ ": " ++ f.2) init
        = init ++ concat_lines fs := by
  intro fs
  induction fs with
  | nil =>
    intro init
    simp [concat_lines]
  | cons f rest ih =>
    intro init
    rw [List.foldl_cons, ih]
    simp [concat_lines, String.append_assoc]

theorem failure_message_eq (failures : List (String × String)) :
    failure_message failures =
      "Failed to remove one or more worktrees; parent workspace was not removed."
        ++ concat_lines failures :=
  foldl_failure_lines failures _

theorem not_contains_id (l : List String) (x : String) :
    decide (¬ l.contains x = true) = true ↔ x ∉ l := by
  simp

/-- C2 (confirmed): `remove_workspace` on a `Main` entry whose children were
processed with at least one failure keeps the parent in the persisted
catalog, drops every successfully removed child from it, and fails with the
header line followed by one `"\n- <child_id>: <error>"` line per failed
child. -/
theorem C2_remove_workspace_partial (env : RemoveEnv) (catalog : List WorkspaceEntry)
    (id : String) (entry : WorkspaceEntry)
    (hnodup : (catalog.map fun w => w.id).Nodup)
    (hfind : findEntry catalog id = some entry)
    (hmain : entry.kind.is_worktree = false)
    (hparent : entry.parent_id = none)
    (hfail : (process_children env (catalog.filter fun w => w.parent_id = some id)).2 ≠ []) :
    entry ∈ (remove_workspace env catalog id).1
    ∧ (∀ c ∈ (catalog.filter fun w => w.parent_id = some id),
        remove_child_step env c = .ok () →
          ∀ w ∈ (remove_workspace env catalog id).1, w.id ≠ c.id)
    ∧ (remove_workspace env catalog id).2 =
        .error (failure_message
          (process_children env (catalog.filter fun w => w.parent_id = some id)).2)
    ∧ failure_message (process_children env (catalog.filter fun w => w.parent_id = some id)).2
        = "Failed to remove one or more worktrees; parent workspace was not removed."
          ++ concat_lines
            (process_children env (catalog.filter fun w => w.parent_id = some id)).2 := by
  have hempty :
      ((process_children env (catalog.filter fun w => w.parent_id = some id)).2).isEmpty
        = false := List.isEmpty_eq_false.mpr hfail
  have hrw : remove_workspace env catalog id =
      (catalog.filter fun w =>
          ¬ ((process_children env (catalog.filter fun w => w.parent_id = some id)).1).contains
            w.id,
        .error (failure_message
          (process_children env (catalog.filter fun w => w.parent_id = some id)).2)) := by
    unfold remove_workspace
    rw [hfind]
    simp only [hmain, Bool.false_eq_true, if_false, hempty, if_neg Bool.false_ne_true]
  refine ⟨?_, ?_, by rw [hrw], failure_message_eq _⟩
  · rw [hrw]
    apply List.mem_filter.mpr
    refine ⟨List.mem_of_find?_eq_some hfind, ?_⟩
    rw [not_contains_id]
    intro hcontains
    rw [process_children_eq] at hcontains
    rcases pc_removed_provenance env _ _ _ hcontains with h | ⟨c, hc, hcx⟩
    · exact absurd h (List.not_mem_nil _)
    · rcases List.mem_filter.mp hc with ⟨hcmem, hcp⟩
      have hce : c = entry :=
        List.inj_on_of_nodup_map hnodup hcmem (List.mem_of_find?_eq_some hfind) hcx
      rw [hce, hparent] at hcp
      simp at hcp
  · intro c hc hok w hw
    rw [hrw] at hw
    rcases List.mem_filter.mp hw with ⟨_, hwc⟩
    rw [not_contains_id] at hwc
    intro hwid
    have hcid : c.id ∈
        (process_children env (catalog.filter fun w => w.parent_id = some id)).1 := by
      rw [process_children_eq]
      exact mem_pc_removed env _ _ c hc hok
    exact hwc (hwid ▸ hcid)

/-- Removal oracle for the C2 witness: the first child removes cleanly, the
second fails with a git error. -/
def C2_env : RemoveEnv :=
  { pathExists := fun _ => true,
    gitWorktreeRemove := fun path => if path = "/w/c1" then .ok () else .error "boom",
    fsRemoveDirAll := fun _ => .ok () }

/-- Main workspace of the C2 witness. -/
def C2_parent : WorkspaceEntry :=
  { id := "p", name := "p", path := "/repo", codex_bin := none, kind := .main,
    parent_id := none, worktree := none, settings := {} }

/-- First child worktree of the C2 witness. -/
def C2_child1 : WorkspaceEntry :=
  { id := "c1", name := "c1", path := "/w/c1", codex_bin := none, kind := .worktree,
    parent_id := some "p", worktree := some { branch := "c1" }, settings := {} }

/-- Second child worktree of the C2 witness. -/
def C2_child2 : WorkspaceEntry :=
  { id := "c2", name := "c2", path := "/w/c2", codex_bin := none, kind := .worktree,
    parent_id := some "p", worktree := some { branch := "c2" }, settings := {} }

/-- Catalog of the C2 witness. -/
def C2_catalog : List WorkspaceEntry := [C2_parent, C2_child1, C2_child2]

/-- Witness for C2: parent kept, removed child gone, partial error returned. -/
theorem C2_remove_workspace_partial_witness :
    C2_parent ∈ (remove_workspace C2_env C2_catalog "p").1
    ∧ (∀ w ∈ (remove_workspace C2_env C2_catalog "p").1, w.id ≠ "c1")
    ∧ (remove_workspace C2_env C2_catalog "p").2 =
        .error (failure_message
          (process_children C2_env (C2_catalog.filter fun w => w.parent_id = some "p")).2) := by
  have h := C2_remove_workspace_partial C2_env C2_catalog "p" C2_parent
    (by decide) (by rfl) (by rfl) (by rfl) (by decide)
  refine ⟨h.1, ?_, h.2.2.1⟩
  intro w hw
  exact h.2.1 C2_child1 (by decide) (by rfl) w hw

/-- C3 (confirmed): `add_workspace` fails when the path is not an existing
directory; when the eager spawn fails it returns the spawn error with the
catalog unchanged; and the catalog changes only when the spawn succeeded, in
which case exactly the new entry is inserted. -/
theorem C3_add_workspace (env : AddEnv) (catalog : List WorkspaceEntry)
    (path : String) (codex_bin : Option String) :
    (env.isDir path = false →
        add_workspace env catalog path codex_bin =
          (catalog, .error "Workspace path must be a folder."))
    ∧ (∀ e, env.isDir path = true →
        env.spawn (new_workspace_entry env path codex_bin) = .error e →
        add_workspace env catalog path codex_bin = (catalog, .error e))
    ∧ ((add_workspace env catalog path codex_bin).1 ≠ catalog →
        env.spawn (new_workspace_entry env path codex_bin) = .ok ()
        ∧ (add_workspace env catalog path codex_bin).1 =
            insertEntry catalog (new_workspace_entry env path codex_bin)) := by
  refine ⟨?_, ?_, ?_⟩
  · intro hdir
    simp [add_workspace, hdir]
  · intro e hdir hsp
    simp [add_workspace, hdir, hsp]
  · intro hne
    by_cases hdir : env.isDir path = true
    · cases hsp : env.spawn (new_workspace_entry env path codex_bin) with
      | error e =>
        have heq : add_workspace env catalog path codex_bin = (catalog, .error e) := by
          simp [add_workspace, hdir, hsp]
        rw [heq] at hne
        exact absurd rfl hne
      | ok u =>
        refine ⟨?_, ?_⟩
        · rfl
        · simp [add_workspace, hdir, hsp]
    · rw [Bool.not_eq_true] at hdir
      have heq : add_workspace env catalog path codex_bin =
          (catalog, .error "Workspace path must be a folder.") := by
        simp [add_workspace, hdir]
      rw [heq] at hne
      exact absurd rfl hne

/-- Add-workspace oracle whose directory check fails. -/
def C3_env_nodir : AddEnv :=
  { isDir := fun _ => false, newId := "id1", spawn := fun _ => .ok () }

/-- Add-workspace oracle whose eager spawn fails. -/
def C3_env_spawnfail : AddEnv :=
  { isDir := fun _ => true, newId := "id1", spawn := fun _ => .error "spawn failed" }

/-- Add-workspace oracle where everything succeeds. -/
def C3_env_ok : AddEnv :=
  { isDir := fun _ => true, newId := "id1", spawn := fun _ => .ok () }

/-- Witness for C3 on the three concrete oracles. -/
theorem C3_add_workspace_witness :
    add_workspace C3_env_nodir [] "/ws" none =
      ([], .error "Workspace path must be a folder.")
    ∧ add_workspace C3_env_spawnfail [] "/ws" none = ([], .error "spawn failed")
    ∧ (add_workspace C3_env_ok [] "/ws" none).1 =
        insertEntry [] (new_workspace_entry C3_env_ok "/ws" none) :=
  ⟨(C3_add_workspace C3_env_nodir [] "/ws" none).1 rfl,
    (C3_add_workspace C3_env_spawnfail [] "/ws" none).2.1 "spawn failed" rfl rfl,
    ((C3_add_workspace C3_env_ok [] "/ws" none).2.2 (by decide)).2⟩

/-- C9 (confirmed): `rename_worktree` on a worktree entry (with resolvable
parent and a non-empty trimmed branch) whose current branch equals the
trimmed requested branch fails with exactly "Branch name is unchanged." and
returns the catalog unmodified — the guard fires before any git call or
catalog mutation. -/
theorem C9_rename_worktree_unchanged (env : RenameEnv) (catalog : List WorkspaceEntry)
    (id branch pid : String) (entry parent : WorkspaceEntry) (wt : WorktreeInfo)
    (htrim : rust_trim branch ≠ "")
    (hfind : findEntry catalog id = some entry)
    (hkind : entry.kind.is_worktree = true)
    (hpid : entry.parent_id = some pid)
    (hparent : findEntry catalog pid = some parent)
    (hwt : entry.worktree = some wt)
    (hbranch : wt.branch = rust_trim branch) :
    rename_worktree env catalog id branch = (catalog, .error "Branch name is unchanged.") := by
  simp [rename_worktree, htrim, hfind, hkind, hpid, hparent, hwt, hbranch]

/-- Rename oracle for the C9 witness (never consulted on the guarded path). -/
def C9_env : RenameEnv :=
  { dataDir := "/data", gitBranchExists := fun _ => false,
    gitBranchRename := fun _ _ => .ok (), createDirAll := fun _ => .ok (),
    pathExists := fun _ => false, gitWorktreeMove := fun _ _ => .ok () }

/-- Main workspace of the C9 witness. -/
def C9_parent : WorkspaceEntry :=
  { id := "p", name := "p", path := "/repo", codex_bin := none, kind := .main,
    parent_id := none, worktree := none, settings := {} }

/-- Worktree workspace of the C9 witness, on branch `"feat"`. -/
def C9_wt : WorkspaceEntry :=
  { id := "w", name := "feat", path := "/data/worktrees/p/feat", codex_bin := none,
    kind := .worktree, parent_id := some "p", worktree := some { branch := "feat" },
    settings := {} }

/-- Catalog of the C9 witness. -/
def C9_catalog : List WorkspaceEntry := [C9_parent, C9_wt]

/-- Witness for C9: renaming the worktree to its current branch name. -/
theorem C9_rename_worktree_unchanged_witness :
    rename_worktree C9_env C9_catalog "w" "feat" =
      (C9_catalog, .error "Branch name is unchanged.") :=
  C9_rename_worktree_unchanged C9_env C9_catalog "w" "feat" "p" C9_wt C9_parent
    { branch := "feat" } (by decide) rfl rfl rfl rfl rfl (by decide)

/-- The input array exactly as the claim words it (refinement reference,
following the claim text rather than the source): the text element first
when the trimmed text is non-empty, then one element per image path in
order, classified by the prefix of the path as given and carrying the path
as given — no per-path trimming, no skipping of blank paths. -/
def claim_input_array (text : String) (images : List String) : List Json :=
  (if rust_trim text ≠ "" then [text_element (rust_trim text)] else [])
    ++ images.map fun path =>
        if image_url_prefix path then image_element path else local_image_element path

/-- The input array the source builds: image paths are trimmed first, paths
that are blank after trimming are skipped, and the emitted element carries
the trimmed path. -/
def amended_input_array (text : String) (images : List String) : List Json :=
  (if rust_trim text ≠ "" then [text_element (rust_trim text)] else [])
    ++ ((images.filter fun path => rust_trim path ≠ "").map fun path =>
        if image_url_prefix (rust_trim path) then image_element (rust_trim path)
        else local_image_element (rust_trim path))

/-- Loop step of the image-path fold in `build_input`, named for the fold
lemmas. -/
def img_step (acc : List Json) (path : String) : List Json :=
  let trimmed := rust_trim path
  if trimmed = "" then acc
  else if image_url_prefix trimmed then acc ++ [image_element trimmed]
  else acc ++ [local_image_element trimmed]

theorem build_input_eq_foldl (text : String) (images : Option (List String)) :
    build_input text images =
      (images.getD []).foldl img_step
        (if rust_trim text ≠ "" then [text_element (rust_trim text)] else []) := rfl

theorem img_foldl (paths : List String) :
    ∀ (acc : List Json),
      paths.foldl img_step acc =
        acc ++ ((paths.filter fun path => rust_trim path ≠ "").map fun path =>
          if image_url_prefix (rust_trim path) then image_element (rust_trim path)
          else local_image_element (rust_trim path)) := by
  induction paths with
  | nil =>
    intro acc
    simp
  | cons p rest ih =>
    intro acc
    rw [List.foldl_cons, ih]
    by_cases hp : rust_trim p = ""
    · simp [img_step, hp]
    · by_cases hu : image_url_prefix (rust_trim p) = true
      · simp [img_step, hp, hu]
      · simp [img_step, hp, hu]

theorem build_input_amended (text : String) (images : Option (List String)) :
    build_input text images = amended_input_array text (images.getD []) := by
  rw [build_input_eq_foldl, img_foldl]
  rfl

theorem lookup_input_field (a b c d e f g : Json) (input : List Json) :
    Json.lookup (Json.obj [("threadId", a), ("input", Json.arr input), ("cwd", b),
      ("approvalPolicy", c), ("sandboxPolicy", d), ("model", e),
      ("effort", f), ("collaborationMode", g)]) "input" = some (Json.arr input) := rfl

theorem lookup_approval_field (a b c d e f g : Json) (s : String) :
    Json.lookup (Json.obj [("threadId", a), ("input", b), ("cwd", c),
      ("approvalPolicy", Json.str s), ("sandboxPolicy", d), ("model", e),
      ("effort", f), ("collaborationMode", g)]) "approvalPolicy" = some (Json.str s) := rfl

/-- C4 (corrected): the claim omits that image paths are trimmed and that
blank (after trimming) paths are skipped.  Amended statement: the forwarded
`turn/start` params carry an input array whose first element is the trimmed
text iff it is non-empty, followed by one element per image path whose
trimmed form is non-empty, in order, classified by the URL prefix of the
trimmed path and carrying the trimmed path; the call fails with
"empty user message" iff that array is empty; and the approval policy is
"never" iff `accessMode` is "full-access", "on-request" otherwise. -/
theorem C4_send_user_message_amended (workspace_path thread_id text : String)
    (model effort access_mode : Option String) (images : Option (List String))
    (collaboration_mode : Option Json) :
    build_input text images = amended_input_array text (images.getD [])
    ∧ (send_user_message workspace_path thread_id text model effort access_mode images
          collaboration_mode = .error "empty user message"
        ↔ amended_input_array text (images.getD []) = [])
    ∧ ∀ params,
        send_user_message workspace_path thread_id text model effort access_mode images
            collaboration_mode = .ok params →
          params.lookup "input" = some (Json.arr (amended_input_array text (images.getD [])))
          ∧ (params.lookup "approvalPolicy" = some (Json.str "never")
              ↔ access_mode = some "full-access")
          ∧ (access_mode ≠ some "full-access" →
              params.lookup "approvalPolicy" = some (Json.str "on-request")) := by
  refine ⟨build_input_amended text images, ?_, ?_⟩
  · constructor
    · intro herr
      by_cases hin : (build_input text images).isEmpty = true
      · rw [← build_input_amended]
        exact List.isEmpty_iff.mp hin
      · unfold send_user_message at herr
        rw [if_neg (by simp_all)] at herr
        exact absurd herr (by simp)
    · intro hempty
      unfold send_user_message
      rw [if_pos]
      rw [List.isEmpty_iff, build_input_amended]
      exact hempty
  · intro params hok
    have hin : (build_input text images).isEmpty = false := by
      by_contra hcon
      rw [Bool.not_eq_false] at hcon
      unfold send_user_message at hok
      rw [if_pos hcon] at hok
      exact absurd hok (by simp)
    have hparams : params = Json.obj
        [("threadId", Json.str thread_id),
         ("input", Json.arr (build_input text images)),
         ("cwd", Json.str workspace_path),
         ("approvalPolicy", Json.str
           (if access_mode.getD "current" = "full-access" then "never" else "on-request")),
         ("sandboxPolicy", sandbox_policy_json workspace_path (access_mode.getD "current")),
         ("model", json_of_opt_str model),
         ("effort", json_of_opt_str effort),
         ("collaborationMode", (collaboration_mode.getD Json.null))] := by
      unfold send_user_message at hok
      rw [if_neg (by simp [hin])] at hok
      exact (Except.ok.inj hok).symm
    refine ⟨?_, ?_, ?_⟩
    · rw [hparams, build_input_amended, lookup_input_field]
    · rw [hparams, lookup_approval_field]
      constructor
      · intro hlook
        have hs := Json.str.inj (Option.some.inj hlook)
        by_cases hgd : access_mode.getD "current" = "full-access"
        · cases access_mode with
          | none => exact absurd hgd (by decide)
          | some s =>
            simp only [Option.getD_some] at hgd
            rw [hgd]
        · rw [if_neg hgd] at hs
          exact absurd hs (by decide)
      · intro hfa
        rw [hfa]
        rfl
    · intro hne
      rw [hparams, lookup_approval_field]
      have hgd : access_mode.getD "current" ≠ "full-access" := by
        cases access_mode with
        | none => decide
        | some s =>
          simp only [Option.getD_some]
          intro hs
          rw [hs] at hne
          exact hne rfl
      rw [if_neg hgd]

/-- Counterexample for C4 as stated: with `text = ""` and
`images = ["  "]` the claim's input array is non-empty (a localImage
element carrying `"  "`), so by the claim the call must not fail with
"empty user message" — but the code trims the path, skips it, and fails
with exactly that error. -/
theorem C4_counterexample :
    send_user_message "/ws" "t1" "" none none none (some ["  "]) none =
      .error "empty user message"
    ∧ claim_input_array "" ["  "] ≠ [] := by
  constructor
  · rfl
  · have h : claim_input_array "" ["  "] = [local_image_element "  "] := rfl
    rw [h]
    exact List.cons_ne_nil _ _

/-- Params object produced by the C4 witness call. -/
def C4_witness_params : Json :=
  match send_user_message "/ws" "t1" "hi " none none none
      (some ["data:abc", "/abs/x.png", "https://e/y.jpg"]) none with
  | .ok p => p
  | .error _ => Json.null

/-- Witness for the amended C4 on the spec's send-message assembly
scenario. -/
theorem C4_send_user_message_amended_witness :
    send_user_message "/ws" "t1" "hi " none none none
        (some ["data:abc", "/abs/x.png", "https://e/y.jpg"]) none = .ok C4_witness_params
    ∧ C4_witness_params.lookup "input" =
        some (Json.arr [text_element "hi", image_element "data:abc",
          local_image_element "/abs/x.png", image_element "https://e/y.jpg"])
    ∧ C4_witness_params.lookup "approvalPolicy" = some (Json.str "on-request") := by
  have hok : send_user_message "/ws" "t1" "hi " none none none
      (some ["data:abc", "/abs/x.png", "https://e/y.jpg"]) none = .ok C4_witness_params := rfl
  have h := (C4_send_user_message_amended "/ws" "t1" "hi " none none none
      (some ["data:abc", "/abs/x.png", "https://e/y.jpg"]) none).2.2 C4_witness_params hok
  refine ⟨hok, ?_, h.2.2 (by simp)⟩
  have harr : amended_input_array "hi " ["data:abc", "/abs/x.png", "https://e/y.jpg"]
      = [text_element "hi", image_element "data:abc",
         local_image_element "/abs/x.png", image_element "https://e/y.jpg"] := rfl
  rw [← harr]
  exact h.1

/-- C6 (confirmed): when the canonicalised `root / path` does not have the
canonical root as a (component) prefix, `read_workspace_file_inner` fails
with exactly "Invalid file path", so no file content is ever returned for
such a path. -/
theorem C6_read_workspace_file_escape (fs : FS) (root relative_path : List String)
    (canonical_root canonical_path : List String)
    (hroot : fs.canonicalize root = .ok canonical_root)
    (hpath : fs.canonicalize (canonical_root ++ relative_path) = .ok canonical_path)
    (hpre : canonical_root.isPrefixOf canonical_path = false) :
    read_workspace_file_inner fs root relative_path = .error "Invalid file path" := by
  unfold read_workspace_file_inner
  rw [hroot]
  dsimp only
  rw [hpath]
  dsimp only
  rw [if_pos (by simp [hpre])]

/-- Filesystem for the C6 witness: the workspace root `/r` resolves to
itself and `/r/../etc/passwd` resolves to `/etc/passwd`, outside the root. -/
def C6_fs : FS :=
  { canonicalize := fun p =>
      if p = ["r"] then .ok ["r"]
      else if p = ["r", "..", "etc", "passwd"] then .ok ["etc", "passwd"]
      else .error "missing",
    metadataIsFile := fun _ => .ok true,
    fileBytes := fun _ => [] }

/-- Witness for C6: reading `../etc/passwd` under root `/r`. -/
theorem C6_read_workspace_file_escape_witness :
    read_workspace_file_inner C6_fs ["r"] ["..", "etc", "passwd"] =
      .error "Invalid file path" :=
  C6_read_workspace_file_escape C6_fs ["r"] ["..", "etc", "passwd"] ["r"] ["etc", "passwd"]
    rfl rfl rfl

theorem take_max_take_succ (l : List Nat) :
    (l.take (MAX_WORKSPACE_FILE_BYTES + 1)).take MAX_WORKSPACE_FILE_BYTES =
      l.take MAX_WORKSPACE_FILE_BYTES := by
  rw [List.take_take]
  congr 1

theorem read_workspace_file_content_eq (fs : FS) (root relative_path : List String)
    (canonical_root canonical_path : List String)
    (hroot : fs.canonicalize root = .ok canonical_root)
    (hpath : fs.canonicalize (canonical_root ++ relative_path) = .ok canonical_path)
    (hpre : canonical_root.isPrefixOf canonical_path = true)
    (hfile : fs.metadataIsFile canonical_path = .ok true) :
    read_workspace_file_inner fs root relative_path =
      (if utf8Valid ((fs.fileBytes canonical_path).take MAX_WORKSPACE_FILE_BYTES)
       then .ok { content := (fs.fileBytes canonical_path).take MAX_WORKSPACE_FILE_BYTES,
                  truncated :=
                    decide (MAX_WORKSPACE_FILE_BYTES < (fs.fileBytes canonical_path).length) }
       else .error "File is not valid UTF-8") := by
  unfold read_workspace_file_inner
  rw [hroot]
  dsimp only
  rw [hpath]
  dsimp only
  rw [if_neg (by simp [hpre])]
  rw [hfile]
  dsimp only
  rw [if_neg (by simp)]
  by_cases hlen : MAX_WORKSPACE_FILE_BYTES < (fs.fileBytes canonical_path).length
  · have htr : decide
        (((fs.fileBytes canonical_path).take (MAX_WORKSPACE_FILE_BYTES + 1)).length
          > MAX_WORKSPACE_FILE_BYTES) = true := by
      rw [decide_eq_true_eq, List.length_take]
      omega
    simp only [htr, if_true, take_max_take_succ, hlen, decide_eq_true_eq]
    simp [hlen]
  · have heq : (fs.fileBytes canonical_path).take (MAX_WORKSPACE_FILE_BYTES + 1) =
        fs.fileBytes canonical_path := List.take_of_length_le (by omega)
    have heq2 : (fs.fileBytes canonical_path).take MAX_WORKSPACE_FILE_BYTES =
        fs.fileBytes canonical_path := List.take_of_length_le (by omega)
    have htr : decide
        (((fs.fileBytes canonical_path).take (MAX_WORKSPACE_FILE_BYTES + 1)).length
          > MAX_WORKSPACE_FILE_BYTES) = false := by
      rw [decide_eq_false_iff_not, List.length_take]
      omega
    simp [htr, heq, heq2, hlen]

/-- C5 (corrected): on a resolvable in-root file, the result is determined by
the first 400 000 bytes: if that prefix is valid UTF-8 the call succeeds with
exactly those bytes as content and `truncated` set iff the file is longer
than 400 000 bytes (so a longer file yields exactly 400 000 bytes, a file of
at most 400 000 bytes is returned whole); otherwise — even for a file whose
full content is valid UTF-8 — it fails with "File is not valid UTF-8". -/
theorem C5_read_workspace_file_truncation (fs : FS) (root relative_path : List String)
    (canonical_root canonical_path : List String)
    (hroot : fs.canonicalize root = .ok canonical_root)
    (hpath : fs.canonicalize (canonical_root ++ relative_path) = .ok canonical_path)
    (hpre : canonical_root.isPrefixOf canonical_path = true)
    (hfile : fs.metadataIsFile canonical_path = .ok true) :
    read_workspace_file_inner fs root relative_path =
      (if utf8Valid ((fs.fileBytes canonical_path).take MAX_WORKSPACE_FILE_BYTES)
       then .ok { content := (fs.fileBytes canonical_path).take MAX_WORKSPACE_FILE_BYTES,
                  truncated :=
                    decide (MAX_WORKSPACE_FILE_BYTES < (fs.fileBytes canonical_path).length) }
       else .error "File is not valid UTF-8") :=
  read_workspace_file_content_eq fs root relative_path canonical_root canonical_path
    hroot hpath hpre hfile

theorem utf8Valid_cons_97 (l : List Nat) : utf8Valid (97 :: l) = utf8Valid l := by
  unfold utf8Valid
  rw [utf8ValidAux.eq_def]
  norm_num

theorem utf8Valid_replicate_97 : ∀ n, utf8Valid (List.replicate n 97) = true
  | 0 => rfl
  | n + 1 => by
    rw [List.replicate_succ, utf8Valid_cons_97]
    exact utf8Valid_replicate_97 n

theorem utf8Valid_replicate_97_c3 :
    ∀ n, utf8Valid (List.replicate n 97 ++ [195]) = false
  | 0 => by decide
  | n + 1 => by
    rw [List.replicate_succ, List.cons_append, utf8Valid_cons_97]
    exact utf8Valid_replicate_97_c3 n

theorem utf8Valid_replicate_97_eacute :
    ∀ n, utf8Valid (List.replicate n 97 ++ [195, 169]) = true
  | 0 => by decide
  | n + 1 => by
    rw [List.replicate_succ, List.cons_append, utf8Valid_cons_97]
    exact utf8Valid_replicate_97_eacute n

theorem take_replicate_of_le (a : Nat) : ∀ (n m : Nat), n ≤ m →
    (List.replicate m a).take n = List.replicate n a := by
  intro n
  induction n with
  | zero =>
    intro m h
    simp
  | succ k ih =>
    intro m h
    cases m with
    | zero => omega
    | succ m2 =>
      rw [List.replicate_succ, List.take_succ_cons, List.replicate_succ, ih m2 (by omega)]

/-- Filesystem holding one 400 001-byte file of `'a'` bytes (for the C5
witness). -/
def C5_fs_long : FS :=
  { canonicalize := fun p => .ok p,
    metadataIsFile := fun _ => .ok true,
    fileBytes := fun _ => List.replicate 400001 97 }

/-- Witness for the amended C5: the 400 001-byte all-ASCII file comes back
with exactly 400 000 bytes of content and `truncated = true`. -/
theorem C5_read_workspace_file_truncation_witness :
    read_workspace_file_inner C5_fs_long ["r"] ["f"] =
      .ok { content := List.replicate 400000 97, truncated := true } := by
  have h := C5_read_workspace_file_truncation C5_fs_long ["r"] ["f"] ["r"] ["r", "f"]
    rfl rfl rfl rfl
  rw [h]
  have htake : (C5_fs_long.fileBytes ["r", "f"]).take MAX_WORKSPACE_FILE_BYTES =
      List.replicate 400000 97 := take_replicate_of_le 97 400000 400001 (by omega)
  rw [htake, utf8Valid_replicate_97, if_pos rfl]
  have hlen : (C5_fs_long.fileBytes ["r", "f"]).length = 400001 := by
    show (List.replicate 400001 97).length = 400001
    rw [List.length_replicate]
  rw [hlen]
  rfl

theorem take_replicate_append_one (a b c : Nat) : ∀ (n : Nat),
    (List.replicate n a ++ [b, c]).take (n + 1) = List.replicate n a ++ [b] := by
  intro n
  induction n with
  | zero => rfl
  | succ k ih =>
    rw [List.replicate_succ, List.cons_append, List.take_succ_cons, ih, List.cons_append]

/-- Byte content of the C5 counterexample file: 399 999 `'a'` bytes followed
by the two UTF-8 bytes of `'é'` — 400 001 bytes, valid UTF-8 as a whole. -/
def C5_bad_bytes : List Nat := List.replicate 399999 97 ++ [195, 169]

/-- Filesystem holding the C5 counterexample file. -/
def C5_fs_bad : FS :=
  { canonicalize := fun p => .ok p,
    metadataIsFile := fun _ => .ok true,
    fileBytes := fun _ => C5_bad_bytes }

/-- Counterexample for C5 as stated: a 400 001-byte file of entirely valid
UTF-8 for which `read_workspace_file` does not return truncated content but
fails with "File is not valid UTF-8" — the 400 000-byte cut splits the final
two-byte character. -/
theorem C5_counterexample :
    C5_bad_bytes.length = 400001
    ∧ utf8Valid C5_bad_bytes = true
    ∧ read_workspace_file_inner C5_fs_bad ["r"] ["f"] =
        .error "File is not valid UTF-8" := by
  have hblen : C5_bad_bytes.length = 400001 := by
    show (List.replicate 399999 97 ++ [195, 169]).length = 400001
    rw [List.length_append, List.length_replicate]
    rfl
  refine ⟨hblen, utf8Valid_replicate_97_eacute 399999, ?_⟩
  have h := read_workspace_file_content_eq C5_fs_bad ["r"] ["f"] ["r"] ["r", "f"]
    rfl rfl rfl rfl
  rw [h]
  have htake : (C5_fs_bad.fileBytes ["r", "f"]).take MAX_WORKSPACE_FILE_BYTES =
      List.replicate 399999 97 ++ [195] := by
    show (List.replicate 399999 97 ++ [195, 169]).take (399999 + 1) =
      List.replicate 399999 97 ++ [195]
    exact take_replicate_append_one 97 195 169 399999
  rw [htake, utf8Valid_replicate_97_c3, if_neg (by simp)]
